import Mathlib

/-!
Verification of the AFM reference-implementation webhook core.

This file is a shallow embedding, in Lean 4, of the webhook subsystem of the
`reference-implementations-afm` repository:

* the HMAC signature verifier `verify_webhook_signature`
  (src/langchain-interpreter/src/afm_cli/interfaces/webhook.py and
  src/python-interpreter/packages/afm-core/src/afm/interfaces/webhook.py —
  the two files are textually identical here);
* the JSON path accessor `access_json_field` in its two variants
  (src/langchain-interpreter/packages/afm-core/src/afm/templates.py and
  src/langchain-interpreter/src/langchain_interpreter/templates.py);
* the template compiler `compile_template` and the two `evaluate_template`
  variants from the same two files;
* the WebSub subscriber state machine `WebSubSubscriber.verify_challenge`
  and the GET/POST endpoint handlers `websub_verification` /
  `receive_webhook`.

Python strings are modelled as `List Char`, byte strings as `List Nat`
(one entry per byte).  Stateful methods become explicit state-passing
functions.  Fallible code returns `Except`/`Option`.  The Python standard
library pieces the code relies on (`hashlib.sha1/sha256/sha512`, `hmac`)
are implemented concretely below so that digests can be computed inside
the kernel; `json.loads` is treated as an oracle (an `Option Json`
argument) where a handler consumes it.

Scan loops of the source (`compile_template`, `access_json_field`) are
embedded with an explicit fuel argument so that every definition stays
structurally recursive and kernel-computable; the top-level wrappers pass
`length + 1` fuel, which is always sufficient because every loop
iteration of the source consumes at least one character.
-/

set_option maxRecDepth 200000

set_option linter.unusedVariables false

/-! ## Basic character / byte utilities -/

/-- Models Python `str.lower` on a single character, for the ASCII range
(the only range exercised by the webhook code: header names, hex digests
and algorithm names). -/
def asciiLowerChar (c : Char) : Char :=
  if 65 ≤ c.toNat ∧ c.toNat ≤ 90 then Char.ofNat (c.toNat + 32) else c

/-- Models Python `str.lower` (ASCII range). -/
def asciiLower (s : List Char) : List Char := s.map asciiLowerChar

/-- One lowercase hex digit, as produced by Python `hexdigest()`. -/
def hexDigitChar (n : Nat) : Char := "0123456789abcdef".toList.getD n '0'

/-- Two lowercase hex digits of one byte. -/
def byteToHex (b : Nat) : List Char := [hexDigitChar (b / 16 % 16), hexDigitChar (b % 16)]

/-- Models Python `bytes.hex()` / `hexdigest()`: lowercase hex of a byte string. -/
def bytesToHex (bs : List Nat) : List Char := (bs.map byteToHex).flatten

/-- Big-endian byte encoding of `v` on `count` bytes. -/
def beBytes (count v : Nat) : List Nat :=
  (List.range count).map (fun i => (v >>> (8 * (count - 1 - i))) % 256)

/-- Big-endian word value of a byte list. -/
def bytesToWordBE (bs : List Nat) : Nat := bs.foldl (fun acc b => acc * 256 + b) 0

/-- Split a list into consecutive chunks of `n` elements (last may be short). -/
def chunksOf (n : Nat) (l : List α) : List (List α) :=
  go l.length l
where
  go : Nat → List α → List (List α)
  | 0, _ => []
  | _, [] => []
  | fuel + 1, l => l.take n :: go fuel (l.drop n)

/-! ## SHA-1 / SHA-256 / SHA-512 and HMAC

Concrete implementations of the `hashlib` digests that
`verify_webhook_signature` dispatches over, and of `hmac.new(...).hexdigest()`.
Machine words are `Nat` reduced mod `2^32` / `2^64` at every arithmetic step.
Validated below against the standard test vectors. -/

def M32 : Nat := 4294967296

def M64 : Nat := 18446744073709551616

def rotr32 (x n : Nat) : Nat := ((x >>> n) ||| (x <<< (32 - n))) % M32

def rotl32 (x n : Nat) : Nat := ((x <<< n) ||| (x >>> (32 - n))) % M32

def rotr64 (x n : Nat) : Nat := ((x >>> n) ||| (x <<< (64 - n))) % M64

/-- Merkle–Damgård padding shared by SHA-1 and SHA-256: append `0x80`,
zero-pad to 56 mod 64, then the 8-byte big-endian bit length. -/
def shaPad64 (msg : List Nat) : List Nat :=
  let bitLen := msg.length * 8
  let zeros := (119 - msg.length % 64) % 64
  msg ++ [0x80] ++ List.replicate zeros 0 ++ beBytes 8 bitLen

/-- SHA-512 padding: append `0x80`, zero-pad to 112 mod 128, then the
16-byte big-endian bit length. -/
def shaPad128 (msg : List Nat) : List Nat :=
  let bitLen := msg.length * 8
  let zeros := (239 - msg.length % 128) % 128
  msg ++ [0x80] ++ List.replicate zeros 0 ++ beBytes 16 bitLen

def sha256K : List Nat :=
  [1116352408, 1899447441, 3049323471, 3921009573, 961987163, 1508970993,
   2453635748, 2870763221, 3624381080, 310598401, 607225278, 1426881987,
   1925078388, 2162078206, 2614888103, 3248222580, 3835390401, 4022224774,
   264347078, 604807628, 770255983, 1249150122, 1555081692, 1996064986,
   2554220882, 2821834349, 2952996808, 3210313671, 3336571891, 3584528711,
   113926993, 338241895, 666307205, 773529912, 1294757372, 1396182291,
   1695183700, 1986661051, 2177026350, 2456956037, 2730485921, 2820302411,
   3259730800, 3345764771, 3516065817, 3600352804, 4094571909, 275423344,
   430227734, 506948616, 659060556, 883997877, 958139571, 1322822218,
   1537002063, 1747873779, 1955562222, 2024104815, 2227730452, 2361852424,
   2428436474, 2756734187, 3204031479, 3329325298]

def sha256H0 : List Nat :=
  [1779033703, 3144134277, 1013904242, 2773480762,
   1359893119, 2600822924, 528734635, 1541459225]

def sha256SmallSigma0 (x : Nat) : Nat := rotr32 x 7 ^^^ rotr32 x 18 ^^^ (x >>> 3)

def sha256SmallSigma1 (x : Nat) : Nat := rotr32 x 17 ^^^ rotr32 x 19 ^^^ (x >>> 10)

def sha256BigSigma0 (x : Nat) : Nat := rotr32 x 2 ^^^ rotr32 x 13 ^^^ rotr32 x 22

def sha256BigSigma1 (x : Nat) : Nat := rotr32 x 6 ^^^ rotr32 x 11 ^^^ rotr32 x 25

/-- Next message-schedule word; `rev` holds the schedule so far, latest first. -/
def sha256ExtendStep (rev : List Nat) : Nat :=
  (sha256SmallSigma1 (rev.getD 1 0) + rev.getD 6 0
    + sha256SmallSigma0 (rev.getD 14 0) + rev.getD 15 0) % M32

def sha256Extend : Nat → List Nat → List Nat
  | 0, rev => rev.reverse
  | n + 1, rev => sha256Extend n (sha256ExtendStep rev :: rev)

def sha256Round (st : Nat × Nat × Nat × Nat × Nat × Nat × Nat × Nat) (kw : Nat) :
    Nat × Nat × Nat × Nat × Nat × Nat × Nat × Nat :=
  match st with
  | (a, b, c, d, e, f, g, h) =>
    let ch := (e &&& f) ^^^ ((M32 - 1 - e) &&& g)
    let t1 := (h + sha256BigSigma1 e + ch + kw) % M32
    let maj := (a &&& b) ^^^ (a &&& c) ^^^ (b &&& c)
    let t2 := (sha256BigSigma0 a + maj) % M32
    (((t1 + t2) % M32), a, b, c, ((d + t1) % M32), e, f, g)

def sha256Compress (h : List Nat) (block : List Nat) : List Nat :=
  let w16 := (chunksOf 4 block).map bytesToWordBE
  let w := sha256Extend 48 w16.reverse
  let kw := List.zipWith (fun k x => (k + x) % M32) sha256K w
  match h with
  | [h0, h1, h2, h3, h4, h5, h6, h7] =>
    match kw.foldl sha256Round (h0, h1, h2, h3, h4, h5, h6, h7) with
    | (a, b, c, d, e, f, g, hh) =>
      [(h0 + a) % M32, (h1 + b) % M32, (h2 + c) % M32, (h3 + d) % M32,
       (h4 + e) % M32, (h5 + f) % M32, (h6 + g) % M32, (h7 + hh) % M32]
  | _ => h

/-- Models `hashlib.sha256(msg).digest()`. -/
def sha256Bytes (msg : List Nat) : List Nat :=
  let blocks := chunksOf 64 (shaPad64 msg)
  ((blocks.foldl sha256Compress sha256H0).map (beBytes 4)).flatten

def sha1H0 : List Nat := [1732584193, 4023233417, 2562383102, 271733878, 3285377520]

/-- Next SHA-1 schedule word; `rev` holds the schedule so far, latest first. -/
def sha1ExtendStep (rev : List Nat) : Nat :=
  rotl32 (rev.getD 2 0 ^^^ rev.getD 7 0 ^^^ rev.getD 13 0 ^^^ rev.getD 15 0) 1

def sha1Extend : Nat → List Nat → List Nat
  | 0, rev => rev.reverse
  | n + 1, rev => sha1Extend n (sha1ExtendStep rev :: rev)

/-- The round function and constant of SHA-1 round `i` (phases of 20 rounds). -/
def sha1FK (i b c d : Nat) : Nat × Nat :=
  if i < 20 then ((b &&& c) ||| ((M32 - 1 - b) &&& d), 0x5a827999)
  else if i < 40 then (b ^^^ c ^^^ d, 0x6ed9eba1)
  else if i < 60 then ((b &&& c) ||| (b &&& d) ||| (c &&& d), 0x8f1bbcdc)
  else (b ^^^ c ^^^ d, 0xca62c1d6)

def sha1Round (st : Nat × Nat × Nat × Nat × Nat) (iw : Nat × Nat) :
    Nat × Nat × Nat × Nat × Nat :=
  match st, iw with
  | (a, b, c, d, e), (i, w) =>
    match sha1FK i b c d with
    | (f, k) => (((rotl32 a 5 + f + e + k + w) % M32), a, rotl32 b 30, c, d)

def sha1Compress (h : List Nat) (block : List Nat) : List Nat :=
  let w16 := (chunksOf 4 block).map bytesToWordBE
  let w := sha1Extend 64 w16.reverse
  let iw := (List.range 80).zip w
  match h with
  | [h0, h1, h2, h3, h4] =>
    match iw.foldl sha1Round (h0, h1, h2, h3, h4) with
    | (a, b, c, d, e) =>
      [(h0 + a) % M32, (h1 + b) % M32, (h2 + c) % M32, (h3 + d) % M32, (h4 + e) % M32]
  | _ => h

/-- Models `hashlib.sha1(msg).digest()`. -/
def sha1Bytes (msg : List Nat) : List Nat :=
  let blocks := chunksOf 64 (shaPad64 msg)
  ((blocks.foldl sha1Compress sha1H0).map (beBytes 4)).flatten

def sha512K : List Nat :=
  [4794697086780616226, 8158064640168781261, 13096744586834688815, 16840607885511220156,
   4131703408338449720, 6480981068601479193, 10538285296894168987, 12329834152419229976,
   15566598209576043074, 1334009975649890238, 2608012711638119052, 6128411473006802146,
   8268148722764581231, 9286055187155687089, 11230858885718282805, 13951009754708518548,
   16472876342353939154, 17275323862435702243, 1135362057144423861, 2597628984639134821,
   3308224258029322869, 5365058923640841347, 6679025012923562964, 8573033837759648693,
   10970295158949994411, 12119686244451234320, 12683024718118986047, 13788192230050041572,
   14330467153632333762, 15395433587784984357, 489312712824947311, 1452737877330783856,
   2861767655752347644, 3322285676063803686, 5560940570517711597, 5996557281743188959,
   7280758554555802590, 8532644243296465576, 9350256976987008742, 10552545826968843579,
   11727347734174303076, 12113106623233404929, 14000437183269869457, 14369950271660146224,
   15101387698204529176, 15463397548674623760, 17586052441742319658, 1182934255886127544,
   1847814050463011016, 2177327727835720531, 2830643537854262169, 3796741975233480872,
   4115178125766777443, 5681478168544905931, 6601373596472566643, 7507060721942968483,
   8399075790359081724, 8693463985226723168, 9568029438360202098, 10144078919501101548,
   10430055236837252648, 11840083180663258601, 13761210420658862357, 14299343276471374635,
   14566680578165727644, 15097957966210449927, 16922976911328602910, 17689382322260857208,
   500013540394364858, 748580250866718886, 1242879168328830382, 1977374033974150939,
   2944078676154940804, 3659926193048069267, 4368137639120453308, 4836135668995329356,
   5532061633213252278, 6448918945643986474, 6902733635092675308, 7801388544844847127]

def sha512H0 : List Nat :=
  [7640891576956012808, 13503953896175478587, 4354685564936845355, 11912009170470909681,
   5840696475078001361, 11170449401992604703, 2270897969802886507, 6620516959819538809]

def sha512SmallSigma0 (x : Nat) : Nat := rotr64 x 1 ^^^ rotr64 x 8 ^^^ (x >>> 7)

def sha512SmallSigma1 (x : Nat) : Nat := rotr64 x 19 ^^^ rotr64 x 61 ^^^ (x >>> 6)

def sha512BigSigma0 (x : Nat) : Nat := rotr64 x 28 ^^^ rotr64 x 34 ^^^ rotr64 x 39

def sha512BigSigma1 (x : Nat) : Nat := rotr64 x 14 ^^^ rotr64 x 18 ^^^ rotr64 x 41

def sha512ExtendStep (rev : List Nat) : Nat :=
  (sha512SmallSigma1 (rev.getD 1 0) + rev.getD 6 0
    + sha512SmallSigma0 (rev.getD 14 0) + rev.getD 15 0) % M64

def sha512Extend : Nat → List Nat → List Nat
  | 0, rev => rev.reverse
  | n + 1, rev => sha512Extend n (sha512ExtendStep rev :: rev)

def sha512Round (st : Nat × Nat × Nat × Nat × Nat × Nat × Nat × Nat) (kw : Nat) :
    Nat × Nat × Nat × Nat × Nat × Nat × Nat × Nat :=
  match st with
  | (a, b, c, d, e, f, g, h) =>
    let ch := (e &&& f) ^^^ ((M64 - 1 - e) &&& g)
    let t1 := (h + sha512BigSigma1 e + ch + kw) % M64
    let maj := (a &&& b) ^^^ (a &&& c) ^^^ (b &&& c)
    let t2 := (sha512BigSigma0 a + maj) % M64
    (((t1 + t2) % M64), a, b, c, ((d + t1) % M64), e, f, g)

def sha512Compress (h : List Nat) (block : List Nat) : List Nat :=
  let w16 := (chunksOf 8 block).map bytesToWordBE
  let w := sha512Extend 64 w16.reverse
  let kw := List.zipWith (fun k x => (k + x) % M64) sha512K w
  match h with
  | [h0, h1, h2, h3, h4, h5, h6, h7] =>
    match kw.foldl sha512Round (h0, h1, h2, h3, h4, h5, h6, h7) with
    | (a, b, c, d, e, f, g, hh) =>
      [(h0 + a) % M64, (h1 + b) % M64, (h2 + c) % M64, (h3 + d) % M64,
       (h4 + e) % M64, (h5 + f) % M64, (h6 + g) % M64, (h7 + hh) % M64]
  | _ => h

/-- Models `hashlib.sha512(msg).digest()`. -/
def sha512Bytes (msg : List Nat) : List Nat :=
  let blocks := chunksOf 128 (shaPad128 msg)
  ((blocks.foldl sha512Compress sha512H0).map (beBytes 8)).flatten

/-- Models `hmac.new(key, msg, hash).digest()` (RFC 2104): `blockSize` is the
hash's block size in bytes (64 for SHA-1/SHA-256, 128 for SHA-512). -/
def hmacBytes (hash : List Nat → List Nat) (blockSize : Nat) (key msg : List Nat) :
    List Nat :=
  let k0 := if key.length > blockSize then hash key else key
  let k := k0 ++ List.replicate (blockSize - k0.length) 0
  hash ((k.map (· ^^^ 0x5c)) ++ hash ((k.map (· ^^^ 0x36)) ++ msg))

/-- `hmac.new(key, msg, hashlib.sha1).hexdigest()`. -/
def hmacSha1Hex (key msg : List Nat) : List Char := bytesToHex (hmacBytes sha1Bytes 64 key msg)

/-- `hmac.new(key, msg, hashlib.sha256).hexdigest()`. -/
def hmacSha256Hex (key msg : List Nat) : List Char := bytesToHex (hmacBytes sha256Bytes 64 key msg)

/-- `hmac.new(key, msg, hashlib.sha512).hexdigest()`. -/
def hmacSha512Hex (key msg : List Nat) : List Char := bytesToHex (hmacBytes sha512Bytes 128 key msg)

/-! ## `verify_webhook_signature`

Embedding of `verify_webhook_signature` (identical in
src/langchain-interpreter/src/afm_cli/interfaces/webhook.py lines 202-247 and
src/python-interpreter/packages/afm-core/src/afm/interfaces/webhook.py lines
156-190).  `secret` is taken as its UTF-8 byte string (the source calls
`secret.encode("utf-8")`), `body` as raw bytes, `signatureHeader` as
`Option` of characters (`None`-able Python `str`).  The Python default
argument `algorithm="sha256"` is passed explicitly by every call site
below. -/

/-- The part of the header before the first `=` — Python
`signature_header.split("=", 1)[0]`. -/
def algoPartOf (header : List Char) : List Char := header.takeWhile (fun c => c != '=')

/-- The membership test `algo.lower() in ("sha1", "sha256", "sha512")`. -/
def recognizedAlgo (a : List Char) : Bool :=
  a == "sha1".toList || a == "sha256".toList || a == "sha512".toList

/-- The algorithm actually used: a recognized lower-cased `<algo>=` header
part overrides the caller-supplied default. -/
def effAlgoOf (header algorithm : List Char) : List Char :=
  if header.contains '=' then
    if recognizedAlgo (asciiLower (algoPartOf header)) then asciiLower (algoPartOf header)
    else algorithm
  else algorithm

/-- The digest the header carries: the part after the first `=` when the
header contains one (`split("=", 1)[1]`), else the whole header. -/
def providedSigOf (header : List Char) : List Char :=
  if header.contains '=' then header.drop ((algoPartOf header).length + 1) else header

/-- The `hash_func` dispatch of the source composed with
`hmac.new(...).hexdigest()`: `sha1` and `sha512` are selected by name and
anything else falls back to SHA-256. -/
def hmacHexForAlgo (algorithm : List Char) (secret body : List Nat) : List Char :=
  if algorithm = "sha1".toList then hmacSha1Hex secret body
  else if algorithm = "sha512".toList then hmacSha512Hex secret body
  else hmacSha256Hex secret body

/-- `verify_webhook_signature(body, signature_header, secret, algorithm=...)`.
The final comparison models `hmac.compare_digest(expected.lower(),
provided.lower())`: constant-time in the source, plain equality of the two
lower-cased hex strings denotationally. -/
def verifyWebhookSignature (body : List Nat) (signatureHeader : Option (List Char))
    (secret : List Nat) (algorithm : List Char) : Bool :=
  match signatureHeader with
  | none => false
  | some header =>
    if header = [] then false
    else
      asciiLower (hmacHexForAlgo (effAlgoOf header algorithm) secret body)
        == asciiLower (providedSigOf header)

/-! ## JSON values and the two path accessors

`Json` models the Python value trees produced by `json.loads`: dicts keep
insertion order (association list), numbers are modelled as integers (no
claim below depends on float payloads). -/

inductive Json where
  | null
  | bool (b : Bool)
  | num (n : Int)
  | str (s : List Char)
  | arr (items : List Json)
  | obj (fields : List (List Char × Json))

/-- Python `field_name in current` / `current[field_name]` on a dict: first
matching key (dict keys are unique in Python, so first = only). -/
def objGet (fields : List (List Char × Json)) (name : List Char) : Option Json :=
  (fields.find? (fun kv => kv.1 == name)).map (fun kv => kv.2)

/-- The error payloads raised by `access_json_field`
(`JSONAccessError(message, path=...)` in both templates.py variants). -/
inductive JsonAccessError where
  | invalidBracket (path : List Char)
  | fieldNotFound (field path : List Char)
  | notAnObject (field path : List Char)
  | invalidIndex (content path : List Char)
  | notAnArray (path : List Char)
  | indexOutOfBounds (path : List Char)
  | emptyFieldName (path : List Char)
deriving DecidableEq

/-- Nonempty digit run as a number. -/
def digitsVal (ds : List Char) : Option Nat :=
  if ds ≠ [] ∧ ds.all (fun c => c.isDigit) then
    some (ds.foldl (fun a c => a * 10 + (c.toNat - 48)) 0)
  else none

/-- Models Python `int(bracket_content)` for the forms the path grammar can
produce: optional single `+`/`-` sign followed by digits (the
whitespace/underscore forms `int` also accepts never arise from a path and
are out of scope). -/
def parseIntChars : List Char → Option Int
  | '-' :: ds => (digitsVal ds).map (fun n => -(n : Int))
  | '+' :: ds => (digitsVal ds).map (fun n => (n : Int))
  | ds => (digitsVal ds).map (fun n => (n : Int))

/-- Python `content.startswith(q) and content.endswith(q)` for a one-char
quote `q` (true for the one-character string `q` itself, as in Python). -/
def quotedBy (q : Char) (l : List Char) : Bool :=
  match l with
  | [] => false
  | c :: _ => c == q && (l.getLast? == some q)

/-- `_handle_bracket_access` after the closing bracket was found: resolve the
bracket `content` against `current` (quoted field name, or integer index with
negative indices rejected as out of bounds).  Identical in both templates.py
variants; `ctx` is the remaining-path string used in error payloads. -/
def bracketElem (current : Json) (content : List Char) (ctx : List Char) :
    Except JsonAccessError Json :=
  if quotedBy '\'' content || quotedBy '"' content then
    let field := (content.drop 1).dropLast
    match current with
    | .obj fields =>
      match objGet fields field with
      | some v => .ok v
      | none => .error (.fieldNotFound field ctx)
    | _ => .error (.notAnObject field ctx)
  else
    match parseIntChars content with
    | none => .error (.invalidIndex content ctx)
    | some idx =>
      match current with
      | .arr items =>
        if idx < 0 ∨ (items.length : Int) ≤ idx then .error (.indexOutOfBounds ctx)
        else .ok (items.getD idx.toNat Json.null)
      | _ => .error (.notAnArray ctx)

/-- The scan loop of `access_json_field` in
src/langchain-interpreter/packages/afm-core/src/afm/templates.py (lines
164-283): bracket step on a leading `[`; a leading `..` raises
`Empty field name in path`; a single leading `.` is skipped; otherwise a
plain field name up to the next `.`/`[` is looked up.  The source's
`_handle_dot_notation` empty-field guard is kept verbatim (it is
unreachable: the loop only reaches that branch when the head is not a
delimiter).  `fuel` makes the recursion structural; every iteration of the
source consumes at least one character, so `length + 1` fuel (supplied by
`afmAccessJsonField`) always suffices and the `none` (fuel-exhausted)
result is unreachable from the wrapper. -/
def afmAccessGo : Nat → Json → List Char → Option (Except JsonAccessError Json)
  | 0, _, _ => none
  | _ + 1, current, [] => some (.ok current)
  | fuel + 1, current, '[' :: rest =>
    let content := rest.takeWhile (fun c => c != ']')
    if content.length = rest.length then some (.error (.invalidBracket ('[' :: rest)))
    else
      match bracketElem current content ('[' :: rest) with
      | .error e => some (.error e)
      | .ok v => afmAccessGo fuel v (rest.drop (content.length + 1))
  | _ + 1, _, '.' :: '.' :: rest => some (.error (.emptyFieldName ('.' :: '.' :: rest)))
  | fuel + 1, current, '.' :: rest => afmAccessGo fuel current rest
  | fuel + 1, current, c :: rest =>
    let field := (c :: rest).takeWhile (fun ch => ch != '.' && ch != '[')
    if field = [] then some (.error (.emptyFieldName (c :: rest)))
    else
      match current with
      | .obj fields =>
        match objGet fields field with
        | some v => afmAccessGo fuel v ((c :: rest).drop field.length)
        | none => some (.error (.fieldNotFound field (c :: rest)))
      | _ => some (.error (.notAnObject field (c :: rest)))

/-- `access_json_field(payload, path)` of the afm-core templates.py: empty
path returns the payload unchanged, otherwise the scan loop runs. -/
def afmAccessJsonField (payload : Json) (path : List Char) : Except JsonAccessError Json :=
  if path = [] then .ok payload
  else (afmAccessGo (path.length + 1) payload path).getD (.ok payload)

/-- The scan loop of `access_json_field` in
src/langchain-interpreter/src/langchain_interpreter/templates.py (lines
228-381).  Identical to `afmAccessGo` except that a leading `.` is always
skipped (no `..` check — this variant has no such guard), and its (equally
unreachable) `_handle_dot_notation` empty-field branch returns the current
value with the path unconsumed instead of raising. -/
def lcAccessGo : Nat → Json → List Char → Option (Except JsonAccessError Json)
  | 0, _, _ => none
  | _ + 1, current, [] => some (.ok current)
  | fuel + 1, current, '[' :: rest =>
    let content := rest.takeWhile (fun c => c != ']')
    if content.length = rest.length then some (.error (.invalidBracket ('[' :: rest)))
    else
      match bracketElem current content ('[' :: rest) with
      | .error e => some (.error e)
      | .ok v => lcAccessGo fuel v (rest.drop (content.length + 1))
  | fuel + 1, current, '.' :: rest => lcAccessGo fuel current rest
  | fuel + 1, current, c :: rest =>
    let field := (c :: rest).takeWhile (fun ch => ch != '.' && ch != '[')
    if field = [] then lcAccessGo fuel current ((c :: rest).drop field.length)
    else
      match current with
      | .obj fields =>
        match objGet fields field with
        | some v => lcAccessGo fuel v ((c :: rest).drop field.length)
        | none => some (.error (.fieldNotFound field (c :: rest)))
      | _ => some (.error (.notAnObject field (c :: rest)))

/-- `access_json_field(payload, path)` of langchain_interpreter/templates.py. -/
def lcAccessJsonField (payload : Json) (path : List Char) : Except JsonAccessError Json :=
  if path = [] then .ok payload
  else (lcAccessGo (path.length + 1) payload path).getD (.ok payload)

/-! ## Compiled templates

Data model of `CompiledTemplate` / `LiteralSegment` / `PayloadVariable` /
`HeaderVariable` (models.py of both packages). -/

inductive TemplateSegment where
  | literal (text : List Char)
  | payloadVar (path : List Char)
  | headerVar (name : List Char)
deriving DecidableEq

structure CompiledTemplate where
  segments : List TemplateSegment
deriving DecidableEq

/-- `TemplateCompilationError(message, template=...)` payloads of
`_parse_http_variable`. -/
inductive TemplateCompilationError where
  | invalidHttpVariable (expr : List Char)
  | unknownHttpVariable (expr : List Char)
deriving DecidableEq

/-- `_parse_http_variable(http_part, full_expr)` — identical in both
templates.py variants: `payload` / `payload.<path>` / `header.<name>` with
empty `<path>`/`<name>` rejected, anything else an unknown-variable error. -/
def parseHttpVariable (httpPart fullExpr : List Char) :
    Except TemplateCompilationError TemplateSegment :=
  if httpPart = "payload".toList then .ok (.payloadVar [])
  else if "payload.".toList.isPrefixOf httpPart then
    let path := httpPart.drop 8
    if path = [] then .error (.invalidHttpVariable fullExpr)
    else .ok (.payloadVar path)
  else if "header.".toList.isPrefixOf httpPart then
    let name := httpPart.drop 7
    if name = [] then .error (.invalidHttpVariable fullExpr)
    else .ok (.headerVar name)
  else .error (.unknownHttpVariable fullExpr)

/-- First index `i ≥` the running counter at which the list carries the
two-character sequence `${`. -/
def findPairAux : List Char → Nat → Option Nat
  | [], _ => none
  | [_], _ => none
  | c1 :: c2 :: rest, i =>
    if c1 = '$' ∧ c2 = '{' then some i else findPairAux (c2 :: rest) (i + 1)

/-- Python `template.find("${", pos)` (absolute index, `none` for `-1`). -/
def findPair (t : List Char) (pos : Nat) : Option Nat := findPairAux (t.drop pos) pos

/-- First index `i ≥` the running counter at which the list carries `target`. -/
def findCharAux (target : Char) : List Char → Nat → Option Nat
  | [], _ => none
  | c :: rest, i => if c = target then some i else findCharAux target rest (i + 1)

/-- Python `template.find(target, start)` for a single character. -/
def findCharFrom (t : List Char) (target : Char) (start : Nat) : Option Nat :=
  findCharAux target (t.drop start) start

/-- The scan loop of `compile_template` (identical in
src/langchain-interpreter/src/langchain_interpreter/templates.py lines 32-92
and src/langchain-interpreter/packages/afm-core/src/afm/templates.py lines
24-57).  One fuel unit per loop iteration; `none` means fuel ran out, and
`c8_compile_template_terminates` below shows any fuel above
`t.length - pos` is enough (the cursor advances by at least three on every
iteration that loops). -/
def compileAux : Nat → List Char → Nat → List TemplateSegment →
    Option (Except TemplateCompilationError (List TemplateSegment))
  | 0, _, _, _ => none
  | fuel + 1, t, pos, acc =>
    if pos < t.length then
      match findPair t pos with
      | none => some (.ok (acc ++ [.literal (t.drop pos)]))
      | some dollarPos =>
        match findCharFrom t '}' dollarPos with
        | none => some (.ok (acc ++ [.literal (t.drop pos)]))
        | some closePos =>
          let acc1 :=
            if pos < dollarPos then acc ++ [.literal ((t.drop pos).take (dollarPos - pos))]
            else acc
          let varExpr := (t.drop (dollarPos + 2)).take (closePos - (dollarPos + 2))
          let segE :=
            if "http:".toList.isPrefixOf varExpr then parseHttpVariable (varExpr.drop 5) varExpr
            else .ok (.literal ('$' :: '{' :: varExpr ++ ['}']))
          match segE with
          | .error e => some (.error e)
          | .ok seg => compileAux fuel t (closePos + 1) (acc1 ++ [seg])
    else some (.ok acc)

/-- `compile_template(template)`.  The `none` fallback is unreachable:
`t.length + 1` fuel exceeds the `t.length - 0` bound of
`c8_compile_template_terminates`. -/
def compileTemplate (t : List Char) : Except TemplateCompilationError CompiledTemplate :=
  match compileAux (t.length + 1) t 0 [] with
  | some (.ok segs) => .ok ⟨segs⟩
  | some (.error e) => .error e
  | none => .ok ⟨[]⟩

/-- Whether the template contains a complete `${...}` variable sequence:
a first `${` with some `}` after it.  (If the first `${` has no closing
brace anywhere after it, no later `${` can have one either, so this
detects any complete sequence.) -/
def hasVarSeq (t : List Char) : Bool :=
  match findPair t 0 with
  | none => false
  | some d => (findCharFrom t '}' d).isSome

/-! ## The two template evaluators -/

/-- A header value of the evaluator's `dict[str, str | list[str]]`. -/
inductive HdrVal where
  | one (v : List Char)
  | many (vs : List (List Char))
deriving DecidableEq

/-- The headers mapping handed to `evaluate_template` (insertion-ordered). -/
def Headers := List (List Char × HdrVal)

/-- The case-insensitive scan `for key, value in headers.items(): if
key.lower() == header_name_lower` — identical in both evaluators. -/
def headerLookup (hs : Headers) (name : List Char) : Option HdrVal :=
  (hs.find? (fun kv => asciiLower kv.1 == asciiLower name)).map (fun kv => kv.2)

/-- `", ".join(value)` for a list value, the value itself otherwise. -/
def hdrValText : HdrVal → List Char
  | .one s => s
  | .many vs => List.intercalate ", ".toList vs

/-- Models Python `json.dumps` on the modelled value trees (compact
separators; string escaping restricted to the characters the claims can
exercise — none of the theorems below inspects serialized output). -/
def jsonEscapeChar (c : Char) : List Char :=
  if c = '"' then ['\\', '"']
  else if c = '\\' then ['\\', '\\']
  else if c = '\n' then ['\\', 'n']
  else if c = '\t' then ['\\', 't']
  else if c = '\r' then ['\\', 'r']
  else [c]

def jsonDumps : Json → List Char
  | .null => "null".toList
  | .bool true => "true".toList
  | .bool false => "false".toList
  | .num n => (toString n).toList
  | .str s => '"' :: (s.map jsonEscapeChar).flatten ++ ['"']
  | .arr items =>
    '[' :: List.intercalate ", ".toList (items.attach.map (fun x => jsonDumps x.1)) ++ [']']
  | .obj fields =>
    '{' :: List.intercalate ", ".toList
        (fields.attach.map (fun kv =>
          '"' :: (kv.1.1.map jsonEscapeChar).flatten ++ '"' :: ':' :: ' ' :: jsonDumps kv.1.2))
      ++ ['}']
decreasing_by
  all_goals simp_wf
  · have := List.sizeOf_lt_of_mem x.2
    omega
  · have h1 : sizeOf kv.1 < sizeOf fields := List.sizeOf_lt_of_mem kv.2
    have h2 : sizeOf kv.1.2 < sizeOf kv.1 := by
      obtain ⟨a, b⟩ := kv.1
      simp
    omega

/-- Shared stringification: a resolved string value is inserted raw, any
other value is serialized as JSON. -/
def jsonValueText : Json → List Char
  | .str s => s
  | v => jsonDumps v

/-- `TemplateEvaluationError(message, template=...)` payloads of the
raising (afm-core) evaluator. -/
inductive TemplateEvaluationError where
  | payloadNotFound (path : List Char)
  | headerNoHeaders (name : List Char)
  | headerNotFound (name : List Char)
deriving DecidableEq

/-- `_handle_payload_variable` of the afm-core evaluator
(src/langchain-interpreter/packages/afm-core/src/afm/templates.py lines
110-131): a `JSONAccessError` is re-raised as `TemplateEvaluationError`. -/
def afmHandlePayloadVariable (payload : Json) (path : List Char) :
    Except TemplateEvaluationError (List Char) :=
  if path = [] then .ok (jsonDumps payload)
  else
    match afmAccessJsonField payload path with
    | .ok v => .ok (jsonValueText v)
    | .error _ => .error (.payloadNotFound path)

/-- `_handle_header_variable` of the afm-core evaluator (lines 134-161):
absent headers or a missing header raise. -/
def afmHandleHeaderVariable (headers : Option Headers) (name : List Char) :
    Except TemplateEvaluationError (List Char) :=
  match headers with
  | none => .error (.headerNoHeaders name)
  | some hs =>
    match headerLookup hs name with
    | some v => .ok (hdrValText v)
    | none => .error (.headerNotFound name)

def afmEvalSegment (payload : Json) (headers : Option Headers) :
    TemplateSegment → Except TemplateEvaluationError (List Char)
  | .literal s => .ok s
  | .payloadVar path => afmHandlePayloadVariable payload path
  | .headerVar name => afmHandleHeaderVariable headers name

def afmEvalSegments (payload : Json) (headers : Option Headers) :
    List TemplateSegment → Except TemplateEvaluationError (List (List Char))
  | [] => .ok []
  | seg :: rest =>
    match afmEvalSegment payload headers seg with
    | .error e => .error e
    | .ok x =>
      match afmEvalSegments payload headers rest with
      | .error e => .error e
      | .ok xs => .ok (x :: xs)

/-- `evaluate_template` of the afm-core package (lines 91-107): parts are
collected per segment, the first failing segment raises, and the parts are
joined. -/
def afmEvaluateTemplate (c : CompiledTemplate) (payload : Json) (headers : Option Headers) :
    Except TemplateEvaluationError (List Char) :=
  (afmEvalSegments payload headers c.segments).map List.flatten

/-- `_handle_payload_variable` of the langchain_interpreter evaluator
(src/langchain-interpreter/src/langchain_interpreter/templates.py lines
170-195): a `JSONAccessError` is caught and the empty string appended. -/
def lcHandlePayloadVariable (payload : Json) (path : List Char) : List Char :=
  if path = [] then jsonDumps payload
  else
    match lcAccessJsonField payload path with
    | .ok v => jsonValueText v
    | .error _ => []

/-- `_handle_header_variable` of the langchain_interpreter evaluator (lines
198-225): absent headers or a missing header append the empty string. -/
def lcHandleHeaderVariable (headers : Option Headers) (name : List Char) : List Char :=
  match headers with
  | none => []
  | some hs =>
    match headerLookup hs name with
    | some v => hdrValText v
    | none => []

def lcEvalSegment (payload : Json) (headers : Option Headers) : TemplateSegment → List Char
  | .literal s => s
  | .payloadVar path => lcHandlePayloadVariable payload path
  | .headerVar name => lcHandleHeaderVariable headers name

/-- `evaluate_template` of langchain_interpreter/templates.py (lines
138-167): total — every segment contributes a string and the parts are
joined. -/
def lcEvaluateTemplate (c : CompiledTemplate) (payload : Json) (headers : Option Headers) :
    List Char :=
  (c.segments.map (lcEvalSegment payload headers)).flatten

/-! ## WebSub subscriber and the two endpoint handlers -/

/-- The `WebSubSubscriber` object state (webhook.py of both interpreters):
constructor configuration plus the mutable `_verified` / `_challenge`
fields. -/
structure WebSubSubscriber where
  hub : List Char
  topic : List Char
  callback : List Char
  secret : Option (List Char)
  leaseSeconds : Int
  verified : Bool
  challenge : Option (List Char)
deriving DecidableEq

/-- `WebSubSubscriber.verify_challenge(mode, topic, challenge, lease_seconds)`
(afm_cli webhook.py lines 167-199, python-interpreter webhook.py lines
132-153 — identical): returns the echoed challenge (or `None`) together
with the updated object state.  The `lease_seconds` argument is accepted
and ignored, as in the source. -/
def verifyChallenge (s : WebSubSubscriber) (mode topic challenge : List Char)
    (leaseSeconds : Option Int) : Option (List Char) × WebSubSubscriber :=
  if topic ≠ s.topic then (none, s)
  else if mode = "subscribe".toList then
    (some challenge, { s with verified := true, challenge := some challenge })
  else if mode = "unsubscribe".toList then
    (some challenge, { s with verified := false })
  else (none, s)

/-- Response of the GET handler: a 200 plain-text body or an
`HTTPException(status)`. -/
inductive WebSubResult where
  | plainText (body : List Char)
  | httpError (status : Nat)
deriving DecidableEq

/-- `websub_verification` (afm_cli webhook.py lines 288-320,
python-interpreter webhook.py lines 216-247 — identical).  The
`getattr(request.app.state, "websub_subscriber", None)` three-way state is
`subSlot`: `none` models the attribute missing entirely, `some none` the
attribute explicitly set to `None`, `some (some s)` a configured
subscriber.  The source guards the echo with the *truthiness* test
`if challenge:` on the `str | None` returned by `verify_challenge`, so an
empty echoed challenge falls through to the 404. -/
def websubVerification (subSlot : Option (Option WebSubSubscriber))
    (mode topic challenge : List Char) (leaseSeconds : Option Int) :
    WebSubResult × Option (Option WebSubSubscriber) :=
  if mode = "subscribe".toList ∨ mode = "unsubscribe".toList then
    match subSlot with
    | some (some s) =>
      match verifyChallenge s mode topic challenge leaseSeconds with
      | (res, s') =>
        match res with
        | some c =>
          if c ≠ [] then (.plainText c, some (some s'))
          else (.httpError 404, some (some s'))
        | none => (.httpError 404, some (some s'))
    | some none => (.httpError 404, some none)
    | none => (.plainText challenge, none)
  else (.httpError 404, subSlot)

/-! ## POST `receive_webhook` -/

/-- The raw request headers as the Starlette `request.headers` multidict
(case-insensitive lookup, first match). -/
def ReqHeaders := List (List Char × List Char)

/-- `request.headers.get(name)`: case-insensitive, first match. -/
def reqHeaderGet (hs : ReqHeaders) (name : List Char) : Option (List Char) :=
  (hs.find? (fun kv => asciiLower kv.1 == asciiLower name)).map (fun kv => kv.2)

/-- Python `a or b` on two `str | None` values (an empty string is falsy). -/
def pyOrStr (a b : Option (List Char)) : Option (List Char) :=
  match a with
  | some s => if s = [] then b else some s
  | none => b

/-- The signature header the handler feeds to the verifier:
`request.headers.get("X-Hub-Signature-256") or
request.headers.get("X-Hub-Signature")`. -/
def sigHeaderOf (hs : ReqHeaders) : Option (List Char) :=
  pyOrStr (reqHeaderGet hs "X-Hub-Signature-256".toList)
    (reqHeaderGet hs "X-Hub-Signature".toList)

/-- Python truthiness of the configured secret (`if verify_signatures and
secret:` — `None` and the empty string are both falsy). -/
def secretTruthy : Option (List Nat) → Bool
  | none => false
  | some s => !s.isEmpty

/-- Outcome of one `receive_webhook` call, up to the point where the agent
is invoked: the 401 / 400 rejections the handler can raise, or the prompt
it proceeds with (the agent stage and response shaping are outside this
model; their status codes depend on the external agent). -/
inductive ReceiveOutcome where
  | unauthorized
  | badRequestJson
  | badRequestTemplate
  | proceed (userPrompt : List Char)
deriving DecidableEq

/-- HTTP status of a modelled outcome (`proceed` nominally 200). -/
def outcomeStatus : ReceiveOutcome → Nat
  | .unauthorized => 401
  | .badRequestJson => 400
  | .badRequestTemplate => 400
  | .proceed _ => 200

/-- The stages of `receive_webhook` after the signature gate: JSON parse,
then template evaluation (or `json.dumps(payload, indent=2)` as the
fallback prompt — indentation is not modelled, no claim inspects the
prompt text).  `parsed` is the `json.loads(body)` oracle (`none` =
`JSONDecodeError`); `evalT` is the `evaluate_template` implementation the
handler's package links against (the repository ships two — see
`c4_evaluator_fork`); the handler passes it `dict(request.headers)`, i.e.
an always-present single-valued header map. -/
def receiveAfterSig (headers : ReqHeaders) (parsed : Option Json)
    (compiledPrompt : Option CompiledTemplate)
    (evalT : CompiledTemplate → Json → Option Headers →
      Except TemplateEvaluationError (List Char)) : ReceiveOutcome :=
  match parsed with
  | none => .badRequestJson
  | some payload =>
    match compiledPrompt with
    | some cp =>
      match evalT cp payload (some (headers.map (fun kv => (kv.1, HdrVal.one kv.2)))) with
      | .ok prompt => .proceed prompt
      | .error _ => .badRequestTemplate
    | none => .proceed (jsonDumps payload)

/-- `receive_webhook` (afm_cli webhook.py lines 331-370, python-interpreter
webhook.py lines 258-295 — identical): raw body first, then the signature
gate (only when verification is enabled and a secret is configured), then
JSON parsing, then prompt construction. -/
def receiveWebhook (verifySignatures : Bool) (secret : Option (List Nat))
    (headers : ReqHeaders) (body : List Nat) (parsed : Option Json)
    (compiledPrompt : Option CompiledTemplate)
    (evalT : CompiledTemplate → Json → Option Headers →
      Except TemplateEvaluationError (List Char)) : ReceiveOutcome :=
  if verifySignatures && secretTruthy secret then
    if !verifyWebhookSignature body (sigHeaderOf headers) (secret.getD []) "sha256".toList then
      .unauthorized
    else receiveAfterSig headers parsed compiledPrompt evalT
  else receiveAfterSig headers parsed compiledPrompt evalT


/-! ## Validation of the hash implementations -/

/-- Standard vector: `sha1("abc")`. -/
theorem sha1_vector_abc :
    bytesToHex (sha1Bytes [97, 98, 99]) =
      "a9993e364706816aba3e25717850c26c9cd0d89d".toList := by decide

/-- Standard vector: `sha256("abc")`. -/
theorem sha256_vector_abc :
    bytesToHex (sha256Bytes [97, 98, 99]) =
      "ba7816bf8f01cfea414140de5dae2223b00361a396177a9cb410ff61f20015ad".toList := by
  decide

/-- Standard vector: `sha512("abc")`. -/
theorem sha512_vector_abc :
    bytesToHex (sha512Bytes [97, 98, 99]) =
      ("ddaf35a193617abacc417349ae20413112e6fa4e89a97ea20a9eeee64b55d39a" ++
       "2192992a274fc1a836ba3c23a3feebbd454d4423643ce80e2a9ac94fa54ca49f").toList := by
  decide

/-- RFC 4231 test case 2: HMAC-SHA256, key `"Jefe"`,
data `"what do ya want for nothing?"`. -/
theorem hmac_sha256_vector_rfc4231 :
    hmacSha256Hex [0x4a, 0x65, 0x66, 0x65]
      [0x77, 0x68, 0x61, 0x74, 0x20, 0x64, 0x6f, 0x20, 0x79, 0x61, 0x20, 0x77,
       0x61, 0x6e, 0x74, 0x20, 0x66, 0x6f, 0x72, 0x20, 0x6e, 0x6f, 0x74, 0x68,
       0x69, 0x6e, 0x67, 0x3f] =
      "5bdcc146bf60754e6a042426089575c75a003f089d2739839dec58b964ec3843".toList := by
  decide

/-! ## Embedding sanity checks

Concrete behaviors from the repository's own test suite
(tests/test_templates.py) and the spec's testable properties, evaluated on
the embedding. -/

/-- `access_json_field({"users.list": [{"full.name": "Bob"}, ...]},
"['users.list'][1]['full.name']") == "Bob"` (mixed bracket/dot vector). -/
theorem access_vector_bracket_mixed :
    afmAccessJsonField
      (Json.obj [("users.list".toList,
        Json.arr [Json.obj [("full.name".toList, Json.str "Alice".toList)],
                  Json.obj [("full.name".toList, Json.str "Bob".toList)]])])
      "['users.list'][1]['full.name']".toList = .ok (Json.str "Bob".toList) := by rfl

/-- `items[5]` and `items[-1]` on a two-element array are both rejected as
out of bounds (no Python-style negative wraparound), in both accessor
variants. -/
theorem access_vector_out_of_bounds :
    (afmAccessJsonField (Json.obj [("items".toList, Json.arr [Json.str "a".toList, Json.str "b".toList])])
      "items[5]".toList = .error (.indexOutOfBounds "[5]".toList))
    ∧ (afmAccessJsonField (Json.obj [("items".toList, Json.arr [Json.str "a".toList, Json.str "b".toList])])
      "items[-1]".toList = .error (.indexOutOfBounds "[-1]".toList))
    ∧ (lcAccessJsonField (Json.obj [("items".toList, Json.arr [Json.str "a".toList, Json.str "b".toList])])
      "items[-1]".toList = .error (.indexOutOfBounds "[-1]".toList)) := by
  exact ⟨rfl, rfl, rfl⟩

/-- End-to-end template vector of the spec: compiling and evaluating
`"Event: ${http:payload.event} from ${http:header.User-Agent}"` against
payload `{"event": "ping"}` and header `User-Agent: probe/1.0`. -/
theorem templates_end_to_end_vector :
    compileTemplate
        ("Event: ".toList ++ '$' :: '{' :: "http:payload.event".toList ++ '}' ::
         " from ".toList ++ '$' :: '{' :: "http:header.User-Agent".toList ++ '}' :: []) =
      .ok ⟨[.literal "Event: ".toList, .payloadVar "event".toList,
            .literal " from ".toList, .headerVar "User-Agent".toList]⟩
    ∧ lcEvaluateTemplate
        ⟨[.literal "Event: ".toList, .payloadVar "event".toList,
          .literal " from ".toList, .headerVar "User-Agent".toList]⟩
        (Json.obj [("event".toList, Json.str "ping".toList)])
        (some [("user-agent".toList, HdrVal.one "probe/1.0".toList)]) =
      "Event: ping from probe/1.0".toList
    ∧ afmEvaluateTemplate
        ⟨[.literal "Event: ".toList, .payloadVar "event".toList,
          .literal " from ".toList, .headerVar "User-Agent".toList]⟩
        (Json.obj [("event".toList, Json.str "ping".toList)])
        (some [("user-agent".toList, HdrVal.one "probe/1.0".toList)]) =
      .ok "Event: ping from probe/1.0".toList := by
  exact ⟨rfl, rfl, rfl⟩

/-- `compile("${http:bogus.x}")` raises a compile error mentioning the
offending expression, and a non-`http:` variable is preserved verbatim. -/
theorem compile_vector_unknown_and_env :
    compileTemplate ('$' :: '{' :: "http:bogus.x".toList ++ '}' :: []) =
      .error (.unknownHttpVariable "http:bogus.x".toList)
    ∧ compileTemplate ('$' :: '{' :: "env:VAR".toList ++ '}' :: []) =
      .ok ⟨[.literal ('$' :: '{' :: "env:VAR".toList ++ '}' :: [])]⟩ := by
  exact ⟨rfl, rfl⟩

/-! ## Helper lemmas -/

/-- Lower-casing is the identity on hex digits. -/
theorem asciiLowerChar_hexDigitChar (n : Nat) : asciiLowerChar (hexDigitChar n) = hexDigitChar n := by
  by_cases h : n < 16
  · interval_cases n <;> rfl
  · have hlen : ("0123456789abcdef".toList).length ≤ n := by
      simp only [not_lt] at h
      exact le_trans (by rfl) h
    unfold hexDigitChar
    rw [List.getD_eq_default _ _ hlen]
    rfl

/-- Lower-casing is the identity on `hexdigest()` output. -/
theorem asciiLower_bytesToHex (bs : List Nat) : asciiLower (bytesToHex bs) = bytesToHex bs := by
  induction bs with
  | nil => rfl
  | cons b bs ih =>
    have hb : bytesToHex (b :: bs) = byteToHex b ++ bytesToHex bs := rfl
    rw [hb]
    unfold asciiLower at ih ⊢
    rw [List.map_append, ih]
    unfold byteToHex
    simp [asciiLowerChar_hexDigitChar]

theorem asciiLower_hmacSha256Hex (key msg : List Nat) :
    asciiLower (hmacSha256Hex key msg) = hmacSha256Hex key msg :=
  asciiLower_bytesToHex _

/-- A recognized algorithm name is one of the three known ones. -/
theorem recognizedAlgo_cases {a : List Char} (h : recognizedAlgo a = true) :
    a = "sha1".toList ∨ a = "sha256".toList ∨ a = "sha512".toList := by
  simp only [recognizedAlgo, Bool.or_eq_true, beq_iff_eq] at h
  tauto

/-! ## C3 -/

/-- C3 (corrected): the claim that any empty field name produced by `..` or
`.[` makes `access_json_field` fail holds in neither variant for all such
paths.  In the afm-core accessor a leading `..` does raise the
empty-field-name error, but the `.` of `.[` is silently skipped and the
bracket access proceeds; in the langchain_interpreter accessor a leading
`.` is always skipped, so `..` resolves as if the empty segment were not
there. -/
theorem c3_empty_segment_behavior (root : Json) (rest : List Char) (fuel : Nat) :
    afmAccessGo (fuel + 1) root ('.' :: '.' :: rest)
      = some (.error (.emptyFieldName ('.' :: '.' :: rest)))
  ∧ afmAccessGo (fuel + 1) root ('.' :: '[' :: rest) = afmAccessGo fuel root ('[' :: rest)
  ∧ lcAccessGo (fuel + 1) root ('.' :: rest) = lcAccessGo fuel root rest :=
  ⟨rfl, rfl, rfl⟩

/-- C3 counterexample: `access_json_field({"a": [5]}, "a.[0]")` returns the
element (afm-core variant), and `access_json_field({"a": {"b": 1}},
"a..b")` returns the field (langchain_interpreter variant) — neither fails
with a path-access error as the claim states. -/
theorem c3_counterexample :
    afmAccessJsonField (Json.obj [(['a'], Json.arr [Json.num 5])]) "a.[0]".toList
      = .ok (Json.num 5)
  ∧ lcAccessJsonField (Json.obj [(['a'], Json.obj [(['b'], Json.num 1)])]) "a..b".toList
      = .ok (Json.num 1) :=
  ⟨rfl, rfl⟩

/-! ## C4 -/

/-- C4: the two `evaluate_template` implementations disagree.  On the
compiled template `${http:header.X}` with an empty header map (and on a
missing payload field), the afm-core evaluator raises
`TemplateEvaluationError` while the langchain_interpreter evaluator
substitutes the empty string. -/
theorem c4_evaluator_fork :
    compileTemplate ('$' :: '{' :: "http:header.X".toList ++ '}' :: [])
      = .ok ⟨[.headerVar ['X']]⟩
  ∧ afmEvaluateTemplate ⟨[.headerVar ['X']]⟩ (Json.obj []) (some [])
      = .error (.headerNotFound ['X'])
  ∧ lcEvaluateTemplate ⟨[.headerVar ['X']]⟩ (Json.obj []) (some []) = []
  ∧ afmEvaluateTemplate ⟨[.payloadVar ['x']]⟩ (Json.obj []) (some [])
      = .error (.payloadNotFound ['x'])
  ∧ lcEvaluateTemplate ⟨[.payloadVar ['x']]⟩ (Json.obj []) (some []) = [] :=
  ⟨rfl, rfl, rfl, rfl, rfl⟩

/-! ## C5 -/

/-- C5: `verify_challenge` echoes the challenge and sets the verified flag
on `subscribe`, echoes and clears it on `unsubscribe`, and returns `None`
with the state unchanged on a topic mismatch or an unknown mode. -/
theorem c5_verify_challenge (s : WebSubSubscriber) (mode topic challenge : List Char)
    (lease : Option Int) :
    (topic = s.topic → mode = "subscribe".toList →
      verifyChallenge s mode topic challenge lease
        = (some challenge, { s with verified := true, challenge := some challenge }))
  ∧ (topic = s.topic → mode = "unsubscribe".toList →
      verifyChallenge s mode topic challenge lease
        = (some challenge, { s with verified := false }))
  ∧ (topic ≠ s.topic → verifyChallenge s mode topic challenge lease = (none, s))
  ∧ (topic = s.topic → mode ≠ "subscribe".toList → mode ≠ "unsubscribe".toList →
      verifyChallenge s mode topic challenge lease = (none, s)) := by
  refine ⟨?_, ?_, ?_, ?_⟩
  · intro ht hm
    subst ht
    subst hm
    unfold verifyChallenge
    rw [if_neg (fun h => h rfl), if_pos rfl]
  · intro ht hm
    subst ht
    subst hm
    unfold verifyChallenge
    rw [if_neg (fun h => h rfl), if_neg (by decide), if_pos rfl]
  · intro ht
    unfold verifyChallenge
    rw [if_pos ht]
  · intro ht hm1 hm2
    subst ht
    unfold verifyChallenge
    rw [if_neg (fun h => h rfl), if_neg hm1, if_neg hm2]

/-- C5 witness: the theorem applied at a concrete subscriber. -/
theorem c5_witness :
    verifyChallenge ⟨"h".toList, "t".toList, "cb".toList, none, 86400, false, none⟩
        "subscribe".toList "t".toList "abc123".toList none
      = (some "abc123".toList,
         ⟨"h".toList, "t".toList, "cb".toList, none, 86400, true, some "abc123".toList⟩)
  ∧ verifyChallenge ⟨"h".toList, "t".toList, "cb".toList, none, 86400, true, some "x".toList⟩
        "subscribe".toList "u".toList "c".toList none
      = (none, ⟨"h".toList, "t".toList, "cb".toList, none, 86400, true, some "x".toList⟩)
  ∧ verifyChallenge ⟨"h".toList, "t".toList, "cb".toList, none, 86400, true, some "x".toList⟩
        "bogus".toList "t".toList "c".toList none
      = (none, ⟨"h".toList, "t".toList, "cb".toList, none, 86400, true, some "x".toList⟩) :=
  ⟨(c5_verify_challenge _ _ _ _ _).1 rfl rfl,
   (c5_verify_challenge _ _ _ _ _).2.2.1 (by decide),
   (c5_verify_challenge _ _ _ _ _).2.2.2 rfl (by decide) (by decide)⟩

/-! ## C10 -/

/-- C10: the langchain_interpreter evaluator is total by construction (its
embedding returns a plain string), and every "not found" outcome resolves
to the empty string: a failing payload path access, an entirely absent
header map, and a header name that is not present. -/
theorem c10_lc_eval_total (payload : Json) (path name : List Char) (hs : Headers)
    (e : JsonAccessError) :
    (lcAccessJsonField payload path = .error e → lcHandlePayloadVariable payload path = [])
  ∧ lcHandleHeaderVariable none name = []
  ∧ (headerLookup hs name = none → lcHandleHeaderVariable (some hs) name = []) := by
  refine ⟨?_, rfl, ?_⟩
  · intro h
    unfold lcHandlePayloadVariable
    by_cases hp : path = []
    · subst hp
      unfold lcAccessJsonField at h
      simp at h
    · rw [if_neg hp, h]
  · intro h
    simp [lcHandleHeaderVariable, h]

/-- C10 witness: the theorem applied at a concrete missing field and
missing header. -/
theorem c10_witness :
    lcHandlePayloadVariable (Json.obj []) ['x'] = []
  ∧ lcHandleHeaderVariable none ['h'] = []
  ∧ lcHandleHeaderVariable (some []) ['h'] = [] :=
  ⟨(c10_lc_eval_total (Json.obj []) ['x'] ['h'] [] (.fieldNotFound ['x'] ['x'])).1 rfl,
   (c10_lc_eval_total (Json.obj []) ['x'] ['h'] [] (.fieldNotFound ['x'] ['x'])).2.1,
   (c10_lc_eval_total (Json.obj []) ['x'] ['h'] [] (.fieldNotFound ['x'] ['x'])).2.2 rfl⟩

/-! ## C6 -/

/-- C6 (corrected): with a configured subscriber, the GET verification
endpoint answers `200 <challenge>` exactly when the mode is
`subscribe`/`unsubscribe`, the topic matches, and the challenge is
nonempty; an empty challenge falls through the handler's truthiness test
`if challenge:` and yields 404, as do a topic mismatch, an invalid mode,
and a subscriber slot explicitly set to `None`. -/
theorem c6_websub_get_behavior (s : WebSubSubscriber) (mode topic challenge : List Char)
    (lease : Option Int) :
    ((mode = "subscribe".toList ∨ mode = "unsubscribe".toList) → topic = s.topic →
      challenge ≠ [] →
      (websubVerification (some (some s)) mode topic challenge lease).1 = .plainText challenge)
  ∧ ((mode = "subscribe".toList ∨ mode = "unsubscribe".toList) → topic = s.topic →
      challenge = [] →
      (websubVerification (some (some s)) mode topic challenge lease).1 = .httpError 404)
  ∧ (topic ≠ s.topic →
      (websubVerification (some (some s)) mode topic challenge lease).1 = .httpError 404)
  ∧ (¬(mode = "subscribe".toList ∨ mode = "unsubscribe".toList) →
      (websubVerification (some (some s)) mode topic challenge lease).1 = .httpError 404)
  ∧ (websubVerification (some none) mode topic challenge lease).1 = .httpError 404 := by
  refine ⟨?_, ?_, ?_, ?_, ?_⟩
  · intro hm ht hc
    subst ht
    unfold websubVerification
    rw [if_pos hm]
    rcases hm with hm | hm <;> subst hm <;>
      simp [verifyChallenge, hc]
  · intro hm ht hc
    subst ht
    subst hc
    unfold websubVerification
    rw [if_pos hm]
    rcases hm with hm | hm <;> subst hm <;>
      simp [verifyChallenge]
  · intro ht
    by_cases hm : mode = "subscribe".toList ∨ mode = "unsubscribe".toList
    · unfold websubVerification
      rw [if_pos hm]
      simp [verifyChallenge, ht]
    · unfold websubVerification
      rw [if_neg hm]
  · intro hm
    unfold websubVerification
    rw [if_neg hm]
  · by_cases hm : mode = "subscribe".toList ∨ mode = "unsubscribe".toList
    · unfold websubVerification
      rw [if_pos hm]
    · unfold websubVerification
      rw [if_neg hm]

/-- C6 counterexample: a matching `subscribe` verification with the empty
challenge string answers 404, not `200 ""` as the claim states. -/
theorem c6_counterexample :
    (websubVerification
        (some (some ⟨"h".toList, "t".toList, "cb".toList, none, 86400, false, none⟩))
        "subscribe".toList "t".toList [] none).1 = .httpError 404 :=
  rfl

/-- C6 witness: the theorem applied at concrete verification requests. -/
theorem c6_witness :
    (websubVerification
        (some (some ⟨"h".toList, "t".toList, "cb".toList, none, 86400, false, none⟩))
        "subscribe".toList "t".toList "abc".toList none).1 = .plainText "abc".toList
  ∧ (websubVerification
        (some (some ⟨"h".toList, "t".toList, "cb".toList, none, 86400, false, none⟩))
        "unsubscribe".toList "other".toList "abc".toList none).1 = .httpError 404
  ∧ (websubVerification
        (some (some ⟨"h".toList, "t".toList, "cb".toList, none, 86400, false, none⟩))
        "bogus".toList "t".toList "abc".toList none).1 = .httpError 404 :=
  ⟨(c6_websub_get_behavior _ _ _ _ _).1 (Or.inl rfl) rfl (by decide),
   (c6_websub_get_behavior _ _ _ _ _).2.2.1 (by decide),
   (c6_websub_get_behavior _ _ _ _ _).2.2.2.1 (by decide)⟩

/-! ## C8 -/

/-- A found `${` is at or after the start index and really is `${`. -/
theorem findPairAux_spec (l : List Char) :
    ∀ (i j : Nat), findPairAux l i = some j →
      i ≤ j ∧ ∃ r, l.drop (j - i) = '$' :: '{' :: r := by
  induction l with
  | nil => intro i j h; simp [findPairAux] at h
  | cons c1 tl ih =>
    cases tl with
    | nil => intro i j h; simp [findPairAux] at h
    | cons c2 rest =>
      intro i j h
      rw [findPairAux] at h
      split at h
      · rename_i hc
        obtain ⟨hc1, hc2⟩ := hc
        injection h with h
        subst h
        subst hc1
        subst hc2
        exact ⟨Nat.le_refl i, rest, by simp⟩
      · obtain ⟨h1, r, h2⟩ := ih (i + 1) j h
        refine ⟨by omega, r, ?_⟩
        have hj : j - i = (j - (i + 1)) + 1 := by omega
        rw [hj, List.drop_succ_cons]
        exact h2

/-- A found character is at or after the start index and really is there. -/
theorem findCharAux_spec (target : Char) (l : List Char) :
    ∀ (i j : Nat), findCharAux target l i = some j →
      i ≤ j ∧ ∃ r, l.drop (j - i) = target :: r := by
  induction l with
  | nil => intro i j h; simp [findCharAux] at h
  | cons c tl ih =>
    intro i j h
    rw [findCharAux] at h
    split at h
    · rename_i hc
      injection h with h
      subst h
      subst hc
      exact ⟨Nat.le_refl i, tl, by simp⟩
    · obtain ⟨h1, r, h2⟩ := ih (i + 1) j h
      refine ⟨by omega, r, ?_⟩
      have hj : j - i = (j - (i + 1)) + 1 := by omega
      rw [hj, List.drop_succ_cons]
      exact h2

theorem findPair_spec {t : List Char} {pos j : Nat} (h : findPair t pos = some j) :
    pos ≤ j ∧ ∃ r, t.drop j = '$' :: '{' :: r := by
  obtain ⟨h1, r, h2⟩ := findPairAux_spec (t.drop pos) pos j h
  refine ⟨h1, r, ?_⟩
  rw [List.drop_drop] at h2
  rw [show pos + (j - pos) = j by omega] at h2
  exact h2

theorem findCharFrom_spec {t : List Char} {target : Char} {start j : Nat}
    (h : findCharFrom t target start = some j) :
    start ≤ j ∧ ∃ r, t.drop j = target :: r := by
  obtain ⟨h1, r, h2⟩ := findCharAux_spec target (t.drop start) start j h
  refine ⟨h1, r, ?_⟩
  rw [List.drop_drop] at h2
  rw [show start + (j - start) = j by omega] at h2
  exact h2

/-- C8: the `compile_template` scan terminates on every input: with any
fuel exceeding the number of unscanned characters the loop completes (the
cursor strictly advances past each matched `${...}`, and a missing `${` or
`}` ends the scan with a trailing literal). -/
theorem c8_compile_template_terminates :
    ∀ (fuel : Nat) (t : List Char) (pos : Nat) (acc : List TemplateSegment),
      t.length - pos < fuel → (compileAux fuel t pos acc).isSome = true := by
  intro fuel
  induction fuel with
  | zero => intro t pos acc h; omega
  | succ f ih =>
    intro t pos acc h
    by_cases hp : pos < t.length
    · cases hfp : findPair t pos with
      | none => simp [compileAux, hp, hfp]
      | some d =>
        cases hfc : findCharFrom t '}' d with
        | none => simp [compileAux, hp, hfp, hfc]
        | some close =>
          obtain ⟨hpd, r1, hdrop1⟩ := findPair_spec hfp
          obtain ⟨hdc, r2, hdrop2⟩ := findCharFrom_spec hfc
          have hclose2 : d + 2 ≤ close := by
            rcases Nat.lt_or_ge close (d + 2) with hlt | hge
            · have hcase : close = d ∨ close = d + 1 := by omega
              rcases hcase with hcase | hcase
              · subst hcase
                rw [hdrop1] at hdrop2
                simp at hdrop2
              · subst hcase
                have hstep : t.drop (d + 1) = '{' :: r1 := by
                  have : t.drop (d + 1) = (t.drop d).drop 1 := by
                    rw [List.drop_drop]
                  rw [this, hdrop1]
                  rfl
                rw [hstep] at hdrop2
                simp at hdrop2
            · exact hge
          have hlenclose : close < t.length := by
            by_contra hcon
            push_neg at hcon
            have : t.drop close = [] := List.drop_eq_nil_of_le hcon
            rw [this] at hdrop2
            exact List.noConfusion hdrop2
          simp only [compileAux, if_pos hp, hfp, hfc]
          cases hseg : (if "http:".toList.isPrefixOf
              ((t.drop (d + 2)).take (close - (d + 2))) then
            parseHttpVariable (((t.drop (d + 2)).take (close - (d + 2))).drop 5)
              ((t.drop (d + 2)).take (close - (d + 2)))
          else .ok (.literal ('$' :: '{' :: ((t.drop (d + 2)).take (close - (d + 2))) ++ ['}']))) with
          | error e => simp [hseg]
          | ok seg =>
            simp only [hseg]
            exact ih t (close + 1) _ (by omega)
    · simp [compileAux, hp]

/-- C8 witness: the scan completes on a concrete template with the fuel
bound discharged. -/
theorem c8_witness :
    (("ab".toList ++ '$' :: '{' :: 'x' :: '}' :: []).length - 0 < 10)
  ∧ (compileAux 10 ("ab".toList ++ '$' :: '{' :: 'x' :: '}' :: []) 0 []).isSome = true :=
  ⟨by decide, c8_compile_template_terminates 10 _ 0 [] (by decide)⟩

/-! ## C9 -/

/-- C9: round-trip literal preservation — a template with no complete
`${...}` sequence compiles to a single literal (or nothing, when empty)
and both evaluators reproduce it verbatim for every payload and header
map. -/
theorem c9_literal_roundtrip (t : List Char) (payload : Json) (headers : Option Headers)
    (h : hasVarSeq t = false) :
    (compileTemplate t).map (fun c => lcEvaluateTemplate c payload headers) = .ok t
  ∧ (compileTemplate t).map (fun c => afmEvaluateTemplate c payload headers)
      = .ok (.ok t) := by
  by_cases ht : t = []
  · subst ht
    exact ⟨rfl, rfl⟩
  · have hlen : 0 < t.length := List.length_pos.mpr ht
    have hstep : compileAux (t.length + 1) t 0 [] = some (.ok [TemplateSegment.literal t]) := by
      unfold hasVarSeq at h
      cases hfp : findPair t 0 with
      | none => simp [compileAux, hlen, hfp]
      | some d =>
        rw [hfp] at h
        have h' : (findCharFrom t '}' d).isSome = false := h
        cases hfc : findCharFrom t '}' d with
        | some c => rw [hfc] at h'; simp at h'
        | none => simp [compileAux, hlen, hfp, hfc]
    have hct : compileTemplate t = .ok ⟨[.literal t]⟩ := by
      unfold compileTemplate
      rw [hstep]
    constructor
    · rw [hct]
      simp [Except.map, lcEvaluateTemplate, lcEvalSegment]
    · rw [hct]
      simp [afmEvaluateTemplate, afmEvalSegments, afmEvalSegment, Except.map]

/-- C9 witness: the round trip at a concrete literal template. -/
theorem c9_witness :
    hasVarSeq "hello".toList = false
  ∧ (compileTemplate "hello".toList).map
      (fun c => lcEvaluateTemplate c Json.null none) = .ok "hello".toList
  ∧ (compileTemplate "hello".toList).map
      (fun c => afmEvaluateTemplate c Json.null none) = .ok (.ok "hello".toList) :=
  ⟨by decide,
   (c9_literal_roundtrip "hello".toList Json.null none (by decide)).1,
   (c9_literal_roundtrip "hello".toList Json.null none (by decide)).2⟩

/-! ## C1 -/

/-- The dispatch falls through to SHA-256 for the name `sha256`. -/
theorem hmacHexForAlgo_sha256 (secret body : List Nat) :
    hmacHexForAlgo "sha256".toList secret body = hmacSha256Hex secret body := by
  unfold hmacHexForAlgo
  rw [if_neg (by decide), if_neg (by decide)]

/-- Verification of a `sha256=`-prefixed header compares the carried hex
digest against the HMAC-SHA256 hex digest, both lower-cased. -/
theorem verify_prefixed_sha256 (body secret : List Nat) (D : List Char) :
    verifyWebhookSignature body (some ("sha256=".toList ++ D)) secret "sha256".toList
      = (asciiLower (hmacSha256Hex secret body) == asciiLower D) := by
  unfold verifyWebhookSignature
  dsimp only
  rw [show ("sha256=".toList ++ D) = 's' :: 'h' :: 'a' :: '2' :: '5' :: '6' :: '=' :: D from rfl]
  rw [if_neg (List.cons_ne_nil _ _)]
  rw [show effAlgoOf ('s' :: 'h' :: 'a' :: '2' :: '5' :: '6' :: '=' :: D) "sha256".toList
      = "sha256".toList from rfl]
  rw [show providedSigOf ('s' :: 'h' :: 'a' :: '2' :: '5' :: '6' :: '=' :: D) = D from rfl]
  rw [hmacHexForAlgo_sha256]

/-- C1 (corrected): a correctly signed `sha256=<hex>` header always
verifies, for every body and secret; and every header that does not divert
the algorithm to SHA-1/SHA-512 through a recognized prefix, and whose
carried hex digest (the part after the first `=`, or the whole header)
differs lower-cased from the HMAC-SHA256 hex digest, is rejected. -/
theorem c1_signature_scheme (body secret : List Nat) (header : List Char) :
    verifyWebhookSignature body (some ("sha256=".toList ++ hmacSha256Hex secret body))
      secret "sha256".toList = true
  ∧ ((header.contains '=' = true → asciiLower (algoPartOf header) ≠ "sha1".toList) →
     (header.contains '=' = true → asciiLower (algoPartOf header) ≠ "sha512".toList) →
     asciiLower (providedSigOf header) ≠ hmacSha256Hex secret body →
     verifyWebhookSignature body (some header) secret "sha256".toList = false) := by
  constructor
  · rw [verify_prefixed_sha256 body secret (hmacSha256Hex secret body)]
    simp
  · intro h1 h2 h3
    by_cases hne : header = []
    · subst hne
      rfl
    · unfold verifyWebhookSignature
      dsimp only
      rw [if_neg hne]
      have heff : hmacHexForAlgo (effAlgoOf header "sha256".toList) secret body
          = hmacSha256Hex secret body := by
        unfold effAlgoOf
        by_cases hc : header.contains '=' = true
        · rw [if_pos hc]
          by_cases hr : recognizedAlgo (asciiLower (algoPartOf header)) = true
          · rw [if_pos hr]
            rcases recognizedAlgo_cases hr with hx | hx | hx
            · exact absurd hx (h1 hc)
            · rw [hx]
              exact hmacHexForAlgo_sha256 secret body
            · exact absurd hx (h2 hc)
          · rw [if_neg hr]
            exact hmacHexForAlgo_sha256 secret body
        · rw [if_neg hc]
          exact hmacHexForAlgo_sha256 secret body
      rw [heff, asciiLower_hmacSha256Hex]
      rw [beq_eq_false_iff_ne]
      exact fun hEq => h3 hEq.symm

/-- C1 counterexample: a header carrying a recognized `sha1=` prefix with
the correct HMAC-SHA1 digest verifies under the sha256 default, although
its hex digest is not the HMAC-SHA256 of the body — so "every header whose
hex digest is not the HMAC-SHA256 returns false" fails as stated. -/
theorem c1_counterexample :
    verifyWebhookSignature [104, 105]
      (some ("sha1=".toList ++ hmacSha1Hex [107, 101, 121] [104, 105]))
      [107, 101, 121] "sha256".toList = true
  ∧ providedSigOf ("sha1=".toList ++ hmacSha1Hex [107, 101, 121] [104, 105])
      = hmacSha1Hex [107, 101, 121] [104, 105]
  ∧ hmacSha1Hex [107, 101, 121] [104, 105] ≠ hmacSha256Hex [107, 101, 121] [104, 105] := by
  refine ⟨by decide, rfl, by decide⟩

/-- C1 witness: the theorem applied at a concrete body/secret and a
concrete wrong digest. -/
theorem c1_witness :
    verifyWebhookSignature [104, 105]
      (some ("sha256=".toList ++ hmacSha256Hex [107, 101, 121] [104, 105]))
      [107, 101, 121] "sha256".toList = true
  ∧ verifyWebhookSignature [104, 105] (some "deadbeef".toList)
      [107, 101, 121] "sha256".toList = false :=
  ⟨(c1_signature_scheme [104, 105] [107, 101, 121] "deadbeef".toList).1,
   (c1_signature_scheme [104, 105] [107, 101, 121] "deadbeef".toList).2
     (fun h => absurd h (by decide)) (fun h => absurd h (by decide)) (by decide)⟩

/-! ## C2 -/

/-- C2 (corrected): when the header contains an `=` after an unrecognized
prefix, the digest compared is the part after the first `=` (not the whole
header); only a header with no `=` at all is compared whole.  In both
cases the HMAC is computed under the caller-supplied default algorithm. -/
theorem c2_raw_digest_parsing (body secret : List Nat) (header algorithm : List Char) :
    (header ≠ [] → header.contains '=' = true →
      recognizedAlgo (asciiLower (algoPartOf header)) = false →
      verifyWebhookSignature body (some header) secret algorithm
        = (asciiLower (hmacHexForAlgo algorithm secret body)
            == asciiLower (header.drop ((algoPartOf header).length + 1))))
  ∧ (header ≠ [] → header.contains '=' = false →
      verifyWebhookSignature body (some header) secret algorithm
        = (asciiLower (hmacHexForAlgo algorithm secret body) == asciiLower header)) := by
  constructor
  · intro hne hc hr
    simp at hc
    simp [verifyWebhookSignature, effAlgoOf, providedSigOf, hne, hc, hr]
  · intro hne hc
    simp at hc
    simp [verifyWebhookSignature, effAlgoOf, providedSigOf, hne, hc]

/-- C2 counterexample: with header `"foo=" + <correct sha256 hex>` the code
verifies successfully (it compares only the part after `=`), while the
claim — treating the whole header as the digest — predicts rejection. -/
theorem c2_counterexample :
    verifyWebhookSignature [104, 105]
      (some ("foo=".toList ++ hmacSha256Hex [107, 101, 121] [104, 105]))
      [107, 101, 121] "sha256".toList = true
  ∧ asciiLower ("foo=".toList ++ hmacSha256Hex [107, 101, 121] [104, 105])
      ≠ asciiLower (hmacSha256Hex [107, 101, 121] [104, 105]) := by
  refine ⟨by decide, by decide⟩

/-- C2 witness: the theorem applied at a concrete unrecognized-prefix
header and a concrete bare-digest header. -/
theorem c2_witness :
    verifyWebhookSignature [104, 105] (some "foo=abc".toList) [107, 101, 121] "sha256".toList
      = (asciiLower (hmacHexForAlgo "sha256".toList [107, 101, 121] [104, 105])
          == asciiLower ("foo=abc".toList.drop ((algoPartOf "foo=abc".toList).length + 1)))
  ∧ verifyWebhookSignature [104, 105] (some "abc".toList) [107, 101, 121] "sha256".toList
      = (asciiLower (hmacHexForAlgo "sha256".toList [107, 101, 121] [104, 105])
          == asciiLower "abc".toList) :=
  ⟨(c2_raw_digest_parsing [104, 105] [107, 101, 121] "foo=abc".toList "sha256".toList).1
     (by decide) (by decide) (by decide),
   (c2_raw_digest_parsing [104, 105] [107, 101, 121] "abc".toList "sha256".toList).2
     (by decide) (by decide)⟩

/-! ## C7 -/

/-- C7 (corrected): the POST handler checks the HMAC signature on the raw
body before any JSON parsing — an invalid signature yields 401 for every
body including unparseable ones, and a parse failure yields 400 whenever
the signature gate passes or is disabled/unconfigured; any 400 implies the
signature gate did not fail.  (The converse of the claim's final clause is
false: template-evaluation failure is a second source of 400 — see the
counterexample.) -/
theorem c7_receive_webhook_gate (vs : Bool) (secret : Option (List Nat))
    (headers : ReqHeaders) (body : List Nat) (parsed : Option Json)
    (cp : Option CompiledTemplate)
    (evalT : CompiledTemplate → Json → Option Headers →
      Except TemplateEvaluationError (List Char)) :
    (vs = true → secretTruthy secret = true →
      verifyWebhookSignature body (sigHeaderOf headers) (secret.getD []) "sha256".toList
        = false →
      receiveWebhook vs secret headers body parsed cp evalT = .unauthorized)
  ∧ (verifyWebhookSignature body (sigHeaderOf headers) (secret.getD []) "sha256".toList
        = true →
      parsed = none →
      receiveWebhook vs secret headers body parsed cp evalT = .badRequestJson)
  ∧ ((vs && secretTruthy secret) = false → parsed = none →
      receiveWebhook vs secret headers body parsed cp evalT = .badRequestJson)
  ∧ (outcomeStatus (receiveWebhook vs secret headers body parsed cp evalT) = 400 →
      ¬(vs = true ∧ secretTruthy secret = true ∧
        verifyWebhookSignature body (sigHeaderOf headers) (secret.getD []) "sha256".toList
          = false)) := by
  refine ⟨?_, ?_, ?_, ?_⟩
  · intro hv hs hver
    unfold receiveWebhook
    rw [hv, hs, hver]
    rfl
  · intro hver hp
    unfold receiveWebhook
    rw [hver, hp]
    by_cases hcond : (vs && secretTruthy secret) = true
    · rw [if_pos hcond]
      rfl
    · rw [if_neg hcond]
      rfl
  · intro hcond hp
    unfold receiveWebhook
    rw [hcond, hp]
    rfl
  · intro h400 hcon
    obtain ⟨hv, hs, hver⟩ := hcon
    unfold receiveWebhook at h400
    rw [hv, hs, hver] at h400
    simp [outcomeStatus] at h400

/-- C7 counterexample: with signature verification disabled, a body that
parses fine but whose configured prompt template references a missing
payload field also produces a 400 (through the afm-core raising
evaluator), refuting "only when ... the body fails to parse as JSON does
the handler respond 400". -/
theorem c7_counterexample :
    receiveWebhook false none [] [] (some (Json.obj []))
      (some ⟨[TemplateSegment.payloadVar ['x']]⟩) afmEvaluateTemplate
      = .badRequestTemplate
  ∧ outcomeStatus .badRequestTemplate = 400
  ∧ (some (Json.obj []) : Option Json) ≠ none := by
  refine ⟨rfl, rfl, by simp⟩

/-- C7 witness: the theorem applied at concrete requests — a missing
signature header (401), a correctly signed unparseable body (400), and a
disabled gate with an unparseable body (400). -/
theorem c7_witness :
    receiveWebhook true (some [1]) [] [] none none afmEvaluateTemplate = .unauthorized
  ∧ receiveWebhook true (some [1])
      [("X-Hub-Signature-256".toList, "sha256=".toList ++ hmacSha256Hex [1] [])]
      [] none none afmEvaluateTemplate = .badRequestJson
  ∧ receiveWebhook false none [] [] none none afmEvaluateTemplate = .badRequestJson :=
  ⟨(c7_receive_webhook_gate true (some [1]) [] [] none none afmEvaluateTemplate).1
     rfl rfl rfl,
   (c7_receive_webhook_gate true (some [1])
      [("X-Hub-Signature-256".toList, "sha256=".toList ++ hmacSha256Hex [1] [])]
      [] none none afmEvaluateTemplate).2.1 (by decide) rfl,
   (c7_receive_webhook_gate false none [] [] none none afmEvaluateTemplate).2.2.1
     rfl rfl⟩
